import Mathlib

/-!
Verification of the client-side annotation and gesture subsystem of the
IspBirntg PDF viewer (frontend `PDFViewer` component).

The embedding below translates the relevant handlers of the source file
(`handleMouseMove`, `handleMouseUp`, `handleDocumentMouseMove`,
`handleResizeMove`, `createAnnotation`, `updateAnnotationPosition`,
`updateTextBoxContent`, `deleteAnnotation`, `saveReadingState`, the unmount
cleanup effect, and the annotation-overlay rendering) into pure Lean
functions.  Coordinates are modelled as rationals; the source's
`Math.sqrt(dx*dx+dy*dy) > t` threshold tests are embedded as the equivalent
squared comparison `dx*dx + dy*dy > t*t`.  React's `useState` semantics are
respected: within one event handler every read of a state variable sees the
value from before the handler ran, which is why the gesture step functions
below combine the old flag with the newly computed condition exactly as the
source does.

Identifier note: the source type `PDFAnnotation` is rendered here as
`AnnotationEntity`, the state flag `isCreatingAnnotation` as `isCreatingAnn`,
and the store mutators `createAnnotation` / `deleteAnnotation` as
`createAnnotationOp` / `deleteAnnotationOp`; all other names follow the
source.
-/

/-- The source's `annotation_type` field: `'highlight' | 'text'`. -/
inductive AnnotationKind
  | highlight
  | text
deriving DecidableEq

/-- The toolbar mode state `annotationMode : 'none' | 'highlight' | 'text'`. -/
inductive AnnotationMode
  | none
  | highlight
  | text
deriving DecidableEq

/-- One annotation as held in the `annotations` state list (source type
`PDFAnnotation`): geometry in page-relative percentage coordinates. -/
structure AnnotationEntity where
  id : String
  annotation_type : AnnotationKind
  page_number : Nat
  x : ℚ
  y : ℚ
  width : ℚ
  height : ℚ
  color : Option String
  text_content : Option String
deriving DecidableEq

/-- The request body the client sends on creation (no id yet; the server
assigns one and echoes the remaining fields back). -/
structure AnnotationDraft where
  annotation_type : AnnotationKind
  page_number : Nat
  x : ℚ
  y : ℚ
  width : ℚ
  height : ℚ
  color : Option String
  text_content : Option String
deriving DecidableEq

/-- The spec's annotation geometry invariant (spec section 3 and section 8). -/
def annotationInvariant (a : AnnotationEntity) : Prop :=
  0 ≤ a.x ∧ 0 ≤ a.y ∧ a.x + a.width ≤ 100 ∧ a.y + a.height ≤ 100

/-- The same geometry invariant read off a creation request body. -/
def draftInvariant (d : AnnotationDraft) : Prop :=
  0 ≤ d.x ∧ 0 ≤ d.y ∧ d.x + d.width ≤ 100 ∧ d.y + d.height ≤ 100

/-- Resize-handle corners, the `corner` strings of `handleResizeStart`. -/
inductive Corner
  | nw
  | ne
  | sw
  | se
deriving DecidableEq

/-- The corner-specific geometry update of `handleResizeMove` (the `switch`
on `resizingTextBox.corner`), before the page-boundary clamp.  `dx`/`dy` are
the pointer displacement converted to percentage units
(`deltaXPercent`/`deltaYPercent`). -/
def resizeRaw (corner : Corner) (dx dy : ℚ) (ann : AnnotationEntity) : AnnotationEntity :=
  match corner with
  | Corner.se =>
    { ann with width := max 5 (ann.width + dx), height := max 5 (ann.height + dy) }
  | Corner.sw =>
    { ann with x := max 0 (ann.x + dx), width := max 5 (ann.width - dx),
               height := max 5 (ann.height + dy) }
  | Corner.ne =>
    { ann with y := max 0 (ann.y + dy), width := max 5 (ann.width + dx),
               height := max 5 (ann.height - dy) }
  | Corner.nw =>
    { ann with x := max 0 (ann.x + dx), y := max 0 (ann.y + dy),
               width := max 5 (ann.width - dx), height := max 5 (ann.height - dy) }

/-- The trailing boundary clamp of `handleResizeMove`:
`if (newX + newWidth > 100) newWidth = 100 - newX` and the analogous line
for the height. -/
def clampToPage (ann : AnnotationEntity) : AnnotationEntity :=
  { ann with
    width := if ann.x + ann.width > 100 then 100 - ann.x else ann.width,
    height := if ann.y + ann.height > 100 then 100 - ann.y else ann.height }

/-- One `handleResizeMove` step applied to the annotation being resized. -/
def handleResizeMove (corner : Corner) (dx dy : ℚ) (ann : AnnotationEntity) : AnnotationEntity :=
  clampToPage (resizeRaw corner dx dy ann)

/-- One `handleDocumentMouseMove` drag step applied to the annotation being
dragged: position clamped to `[0, 100 - width]` and `[0, 100 - height]`. -/
def handleDocumentMouseMove (dx dy : ℚ) (ann : AnnotationEntity) : AnnotationEntity :=
  { ann with
    x := max 0 (min (100 - ann.width) (ann.x + dx)),
    y := max 0 (min (100 - ann.height) (ann.y + dy)) }

theorem resizeMove_within_bounds (c : Corner) (dx dy : ℚ) (a : AnnotationEntity) :
    (handleResizeMove c dx dy a).x + (handleResizeMove c dx dy a).width ≤ 100 ∧
    (handleResizeMove c dx dy a).y + (handleResizeMove c dx dy a).height ≤ 100 := by
  cases c <;> dsimp [handleResizeMove, resizeRaw, clampToPage] <;>
    constructor <;> split_ifs <;> linarith

theorem resizeMove_nonneg (c : Corner) (dx dy : ℚ) (a : AnnotationEntity)
    (hx : 0 ≤ a.x) (hy : 0 ≤ a.y) :
    0 ≤ (handleResizeMove c dx dy a).x ∧ 0 ≤ (handleResizeMove c dx dy a).y := by
  cases c <;> dsimp [handleResizeMove, resizeRaw, clampToPage] <;>
    exact ⟨by first | exact hx | exact le_max_left _ _,
           by first | exact hy | exact le_max_left _ _⟩

/-- Claim C1 (amended): the geometry invariant is preserved by every drag
step and by every resize step, provided it held before the step.  (The
unamended claim also asserted it immediately after a creation commit, which
`creation_commit_violates_invariant` refutes: creation commits the raw
pointer-derived rectangle.) -/
theorem drag_resize_preserve_invariant (a : AnnotationEntity) (dx dy rdx rdy : ℚ)
    (c : Corner) (h : annotationInvariant a) :
    annotationInvariant (handleDocumentMouseMove dx dy a) ∧
    annotationInvariant (handleResizeMove c rdx rdy a) := by
  obtain ⟨hx, hy, hxw, hyh⟩ := h
  constructor
  · have hw : a.width ≤ 100 := by linarith
    have hh : a.height ≤ 100 := by linarith
    refine ⟨le_max_left _ _, le_max_left _ _, ?_, ?_⟩
    · have h1 : max 0 (min (100 - a.width) (a.x + dx)) ≤ 100 - a.width :=
        max_le (by linarith) (min_le_left _ _)
      dsimp [handleDocumentMouseMove]
      linarith
    · have h1 : max 0 (min (100 - a.height) (a.y + dy)) ≤ 100 - a.height :=
        max_le (by linarith) (min_le_left _ _)
      dsimp [handleDocumentMouseMove]
      linarith
  · obtain ⟨hbx, hby⟩ := resizeMove_nonneg c rdx rdy a hx hy
    obtain ⟨hbw, hbh⟩ := resizeMove_within_bounds c rdx rdy a
    exact ⟨hbx, hby, hbw, hbh⟩

def sampleId : String := "a1"

def emptyText : String := ""

def sampleTextEntity : AnnotationEntity :=
  { id := sampleId, annotation_type := AnnotationKind.text, page_number := 1,
    x := 0, y := 0, width := 10, height := 10,
    color := Option.none, text_content := some emptyText }

theorem drag_resize_preserve_invariant_witness :
    annotationInvariant (handleDocumentMouseMove 5 5 sampleTextEntity) ∧
    annotationInvariant (handleResizeMove Corner.nw 1 1 sampleTextEntity) :=
  drag_resize_preserve_invariant sampleTextEntity 5 5 1 1 Corner.nw
    (by norm_num [annotationInvariant, sampleTextEntity])

/-- `annotationStart`: the anchor recorded by `handleMouseDown` in creation
mode (page-relative percentage point plus the page number under the
pointer). -/
structure AnnotationStart where
  x : ℚ
  y : ℚ
  pageNumber : Nat
deriving DecidableEq

/-- The creation-mode sub-state of a pointer session: the
`isCreatingAnnotation` flag (here `isCreatingAnn`) and `annotationEnd`. -/
structure CreateGestureState where
  isCreatingAnn : Bool
  annotationEnd : Option (ℚ × ℚ)
deriving DecidableEq

/-- Squared displacement; the source compares
`Math.sqrt(deltaX*deltaX + deltaY*deltaY)` against a threshold `t`, which is
equivalent to comparing this value against `t*t`. -/
def dist2 (p q : ℚ × ℚ) : ℚ :=
  (p.1 - q.1) * (p.1 - q.1) + (p.2 - q.2) * (p.2 - q.2)

/-- One creation-mode `handleMouseMove` step.  Both reads of
`isCreatingAnnotation` see the pre-event value (React state), so the flag
becomes `old || (distance > 0.5)` and `annotationEnd` is updated under the
same disjunction. -/
def handleMouseMoveCreate (st : AnnotationStart) (s : CreateGestureState)
    (p : ℚ × ℚ) : CreateGestureState :=
  { isCreatingAnn := s.isCreatingAnn || decide (dist2 p (st.x, st.y) > 1/4),
    annotationEnd :=
      if s.isCreatingAnn || decide (dist2 p (st.x, st.y) > 1/4) then some p
      else s.annotationEnd }

/-- The creation sub-state after a pointer-down followed by the given move
samples (initial state: flag clear, no end point). -/
def runCreateGesture (st : AnnotationStart) (ps : List (ℚ × ℚ)) : CreateGestureState :=
  ps.foldl (handleMouseMoveCreate st) ⟨false, Option.none⟩

/-- The creation branch of `handleMouseUp`: with the session committed
(`isCreatingAnnotation` set and an end point present), build the request
rectangle from anchor and end point; require `width > 1`; for a highlight
floor the height at `1.5` and attach the current `highlightColor`; for a
text box additionally require `height > 1` and start with empty content. -/
def commitCreation (mode : AnnotationMode) (highlightColor : String)
    (st : AnnotationStart) (isCreatingAnn : Bool)
    (annotationEnd : Option (ℚ × ℚ)) : Option AnnotationDraft :=
  match annotationEnd with
  | Option.none => Option.none
  | some e =>
    if isCreatingAnn then
      if |e.1 - st.x| > 1 then
        match mode with
        | AnnotationMode.highlight =>
          some { annotation_type := AnnotationKind.highlight,
                 page_number := st.pageNumber,
                 x := min st.x e.1, y := min st.y e.2,
                 width := |e.1 - st.x|, height := max (|e.2 - st.y|) (3/2),
                 color := some highlightColor, text_content := Option.none }
        | AnnotationMode.text =>
          if |e.2 - st.y| > 1 then
            some { annotation_type := AnnotationKind.text,
                   page_number := st.pageNumber,
                   x := min st.x e.1, y := min st.y e.2,
                   width := |e.1 - st.x|, height := |e.2 - st.y|,
                   color := Option.none, text_content := some emptyText }
          else Option.none
        | AnnotationMode.none => Option.none
      else Option.none
    else Option.none

def yellowColor : String := "yellow"

/-- Claim C1 counterexample: a committed highlight creation whose inputs are
all inside the page still violates the invariant, because `handleMouseUp`
commits the raw rectangle and the `1.5` height floor pushes `y + height`
past 100: dragging from `(10, 99)` to `(30, 99.5)` commits
`y = 99, height = 1.5`. -/
theorem creation_commit_violates_invariant :
    commitCreation AnnotationMode.highlight yellowColor ⟨10, 99, 2⟩
        (runCreateGesture ⟨10, 99, 2⟩ [(30, 199/2)]).isCreatingAnn
        (runCreateGesture ⟨10, 99, 2⟩ [(30, 199/2)]).annotationEnd =
      some ⟨AnnotationKind.highlight, 2, 10, 99, 20, 3/2, some yellowColor,
            Option.none⟩ ∧
    ¬ draftInvariant
        ⟨AnnotationKind.highlight, 2, 10, 99, 20, 3/2, some yellowColor,
         Option.none⟩ := by
  constructor
  · have hrun : runCreateGesture ⟨10, 99, 2⟩ [(30, 199/2)] =
        ⟨true, some (30, 199/2)⟩ := by
      norm_num [runCreateGesture, handleMouseMoveCreate, dist2]
    rw [hrun]
    have h1 : |(30:ℚ) - 10| = 20 := by rw [abs_of_nonneg] <;> norm_num
    have h2 : |(199:ℚ)/2 - 99| = 1/2 := by rw [abs_of_nonneg] <;> norm_num
    have h3 : max ((1:ℚ)/2) (3/2) = 3/2 := max_eq_right (by norm_num)
    have h4 : min (10:ℚ) 30 = 10 := min_eq_left (by norm_num)
    have h5 : min (99:ℚ) (199/2) = 99 := min_eq_left (by norm_num)
    norm_num [commitCreation, h1, h2, h3, h4, h5]
    rw [abs_of_nonneg] <;> norm_num
  · norm_num [draftInvariant]

/-- The screenshot-selection sub-state of a pointer session: `isSelecting`
and `selectionEnd` (pixel coordinates relative to the scroll container). -/
structure SelectGestureState where
  isSelecting : Bool
  selectionEnd : Option (ℚ × ℚ)
deriving DecidableEq

/-- One screenshot-mode `handleMouseMove` step.  The flag becomes
`old || (distance > 5)` but — unlike the creation branch — `selectionEnd` is
updated only under the pre-event flag (`if (isSelecting)`), so the first
qualifying move does not yet record an end point. -/
def handleMouseMoveSelect (selStart : ℚ × ℚ) (s : SelectGestureState)
    (p : ℚ × ℚ) : SelectGestureState :=
  { isSelecting := s.isSelecting || decide (dist2 p selStart > 25),
    selectionEnd := if s.isSelecting then some p else s.selectionEnd }

/-- The screenshot sub-state after a pointer-down followed by the given move
samples. -/
def runSelectGesture (selStart : ℚ × ℚ) (ps : List (ℚ × ℚ)) : SelectGestureState :=
  ps.foldl (handleMouseMoveSelect selStart) ⟨false, Option.none⟩

/-- A pixel rectangle in the scroll container's coordinate space. -/
structure PixelRect where
  x : ℚ
  y : ℚ
  width : ℚ
  height : ℚ
deriving DecidableEq

/-- The selection rectangle computed at the top of the screenshot branch of
`handleMouseUp` from `selectionStart` and `selectionEnd`. -/
def screenshotRect (selStart selEnd : ℚ × ℚ) : PixelRect :=
  { x := min selStart.1 selEnd.1, y := min selStart.2 selEnd.2,
    width := |selEnd.1 - selStart.1|, height := |selEnd.2 - selStart.2| }

/-- The screenshot branch of `handleMouseUp`: the capture is attempted
exactly when `isSelecting` is set, both endpoints exist, and the rectangle
is strictly larger than 10 pixels in each dimension (`width > 10 &&
height > 10`); otherwise the branch is a silent no-op. -/
def screenshotAttempt (isSelecting : Bool) (selStart selEnd : Option (ℚ × ℚ)) :
    Option PixelRect :=
  match selStart, selEnd with
  | some s, some e =>
    if isSelecting then
      if (screenshotRect s e).width > 10 ∧ (screenshotRect s e).height > 10 then
        some (screenshotRect s e)
      else Option.none
    else Option.none
  | _, _ => Option.none

/-- The JSX guard for the creation preview box:
`isCreatingAnnotation && annotationStart && annotationEnd && ...`. -/
def creationPreviewShown (s : CreateGestureState) : Bool :=
  s.isCreatingAnn && s.annotationEnd.isSome

/-- The JSX guard for the screenshot selection box:
`isSelecting && selectionStart && selectionEnd && ...`. -/
def selectionBoxShown (s : SelectGestureState) : Bool :=
  s.isSelecting && s.selectionEnd.isSome

/-- The annotation list after the creation branch of `handleMouseUp`
resolves: if a draft was committed, the store appends the server's echo of
it; otherwise the list is untouched. -/
def annsAfterCreateCommit (anns : List AnnotationEntity)
    (committed : Option AnnotationDraft)
    (server : AnnotationDraft → AnnotationEntity) : List AnnotationEntity :=
  match committed with
  | some d => anns ++ [server d]
  | Option.none => anns

theorem foldl_create_below (st : AnnotationStart) (ps : List (ℚ × ℚ))
    (h : ∀ p ∈ ps, dist2 p (st.x, st.y) ≤ 1/4) :
    runCreateGesture st ps = ⟨false, Option.none⟩ := by
  induction ps with
  | nil => rfl
  | cons p ps ih =>
    have hp : ¬ (dist2 p (st.x, st.y) > 1/4) :=
      not_lt.mpr (h p (List.mem_cons_self p ps))
    have hb : decide (dist2 p (st.x, st.y) > 1/4) = false := decide_eq_false hp
    have hstep : handleMouseMoveCreate st ⟨false, Option.none⟩ p =
        ⟨false, Option.none⟩ := by
      simp [handleMouseMoveCreate, hb]
      linarith [not_lt.mp hp]
    show (p :: ps).foldl (handleMouseMoveCreate st) ⟨false, Option.none⟩ = _
    rw [List.foldl_cons, hstep]
    exact ih (fun q hq => h q (List.mem_cons_of_mem p hq))

theorem foldl_select_below (selStart : ℚ × ℚ) (ps : List (ℚ × ℚ))
    (h : ∀ p ∈ ps, dist2 p selStart ≤ 25) :
    runSelectGesture selStart ps = ⟨false, Option.none⟩ := by
  induction ps with
  | nil => rfl
  | cons p ps ih =>
    have hp : ¬ (dist2 p selStart > 25) :=
      not_lt.mpr (h p (List.mem_cons_self p ps))
    have hb : decide (dist2 p selStart > 25) = false := decide_eq_false hp
    have hstep : handleMouseMoveSelect selStart ⟨false, Option.none⟩ p =
        ⟨false, Option.none⟩ := by
      simp [handleMouseMoveSelect, hb]
    show (p :: ps).foldl (handleMouseMoveSelect selStart) ⟨false, Option.none⟩ = _
    rw [List.foldl_cons, hstep]
    exact ih (fun q hq => h q (List.mem_cons_of_mem p hq))

/-- Claim C3: a pointer session whose every move sample stays within the
mode's commit threshold of the anchor (squared distance at most `0.5² = 1/4`
percentage units for creation, `5² = 25` pixels for screenshot selection)
creates no annotation, leaves the store unchanged, captures no screenshot,
and shows neither the creation preview box nor the selection box. -/
theorem below_threshold_no_effect (st : AnnotationStart) (mode : AnnotationMode)
    (color : String) (selStart : ℚ × ℚ) (ps qs : List (ℚ × ℚ))
    (anns : List AnnotationEntity) (server : AnnotationDraft → AnnotationEntity)
    (hps : ∀ p ∈ ps, dist2 p (st.x, st.y) ≤ 1/4)
    (hqs : ∀ q ∈ qs, dist2 q selStart ≤ 25) :
    commitCreation mode color st (runCreateGesture st ps).isCreatingAnn
        (runCreateGesture st ps).annotationEnd = Option.none ∧
    annsAfterCreateCommit anns
        (commitCreation mode color st (runCreateGesture st ps).isCreatingAnn
          (runCreateGesture st ps).annotationEnd) server = anns ∧
    creationPreviewShown (runCreateGesture st ps) = false ∧
    screenshotAttempt (runSelectGesture selStart qs).isSelecting (some selStart)
        (runSelectGesture selStart qs).selectionEnd = Option.none ∧
    selectionBoxShown (runSelectGesture selStart qs) = false := by
  rw [foldl_create_below st ps hps, foldl_select_below selStart qs hqs]
  exact ⟨rfl, rfl, rfl, rfl, rfl⟩

theorem below_threshold_no_effect_witness :
    commitCreation AnnotationMode.highlight yellowColor ⟨10, 10, 1⟩
        (runCreateGesture ⟨10, 10, 1⟩ [(101/10, 10)]).isCreatingAnn
        (runCreateGesture ⟨10, 10, 1⟩ [(101/10, 10)]).annotationEnd =
      Option.none ∧
    screenshotAttempt (runSelectGesture (0, 0) [(3, 4)]).isSelecting (some (0, 0))
        (runSelectGesture (0, 0) [(3, 4)]).selectionEnd = Option.none := by
  have h := below_threshold_no_effect ⟨10, 10, 1⟩ AnnotationMode.highlight
    yellowColor (0, 0) [(101/10, 10)] [(3, 4)] [] (fun _ => sampleTextEntity)
    (by intro p hp
        simp only [List.mem_singleton] at hp
        subst hp
        norm_num [dist2])
    (by intro q hq
        simp only [List.mem_singleton] at hq
        subst hq
        norm_num [dist2])
  exact ⟨h.1, h.2.2.2.1⟩

/-- After the creation branch awaits `createAnnotation`: when the mode is
`text` and the call returned an entity, `setEditingTextBox(newAnnotation.id)`
puts that entity into inline-edit mode; highlights never enter edit mode
from creation. -/
def editingAfterCreate (mode : AnnotationMode)
    (createResult : Option AnnotationEntity) : Option String :=
  match mode, createResult with
  | AnnotationMode.text, some newAnn => some newAnn.id
  | _, _ => Option.none

/-- Claim C5: the scenario drag from `(10, 10)` to `(30, 11)` on page 2 in
highlight mode commits `pageNumber = 2, x = 10, y = 10, width = 20,
height = 1.5`; in general every committed draft has `width > 1`, a highlight
draft has `height ≥ 1.5`, a text draft has `height > 1`, and a successfully
created text box immediately enters inline-edit mode. -/
theorem creation_commit_semantics :
    commitCreation AnnotationMode.highlight yellowColor ⟨10, 10, 2⟩
        (runCreateGesture ⟨10, 10, 2⟩ [(30, 11)]).isCreatingAnn
        (runCreateGesture ⟨10, 10, 2⟩ [(30, 11)]).annotationEnd =
      some ⟨AnnotationKind.highlight, 2, 10, 10, 20, 3/2, some yellowColor,
            Option.none⟩ ∧
    (∀ (mode : AnnotationMode) (color : String) (st : AnnotationStart)
        (b : Bool) (e : Option (ℚ × ℚ)) (d : AnnotationDraft),
      commitCreation mode color st b e = some d →
        1 < d.width ∧
        (d.annotation_type = AnnotationKind.highlight → 3/2 ≤ d.height) ∧
        (d.annotation_type = AnnotationKind.text → 1 < d.height)) ∧
    (∀ a : AnnotationEntity,
      editingAfterCreate AnnotationMode.text (some a) = some a.id) := by
  refine ⟨?_, ?_, fun a => rfl⟩
  · have hrun : runCreateGesture ⟨10, 10, 2⟩ [(30, 11)] =
        ⟨true, some (30, 11)⟩ := by
      norm_num [runCreateGesture, handleMouseMoveCreate, dist2]
    rw [hrun]
    have h1 : |(30:ℚ) - 10| = 20 := by rw [abs_of_nonneg] <;> norm_num
    have h2 : |(11:ℚ) - 10| = 1 := by rw [abs_of_nonneg] <;> norm_num
    have h3 : max (1:ℚ) (3/2) = 3/2 := max_eq_right (by norm_num)
    have h4 : min (10:ℚ) 30 = 10 := min_eq_left (by norm_num)
    have h5 : min (10:ℚ) 11 = 10 := min_eq_left (by norm_num)
    norm_num [commitCreation, h1, h2, h3, h4, h5]
  · intro mode color st b e d hcommit
    cases e with
    | none => exact absurd hcommit (by simp [commitCreation])
    | some pt =>
      cases mode with
      | highlight =>
        simp only [commitCreation] at hcommit
        split_ifs at hcommit with hb hw
        injection hcommit with hd
        subst hd
        refine ⟨hw, fun _ => le_max_right _ _, fun habs => ?_⟩
        simp at habs
      | text =>
        simp only [commitCreation] at hcommit
        split_ifs at hcommit with hb hw hh
        injection hcommit with hd
        subst hd
        refine ⟨hw, fun habs => ?_, fun _ => hh⟩
        simp at habs
      | none =>
        simp only [commitCreation] at hcommit
        split_ifs at hcommit

theorem creation_commit_semantics_witness :
    commitCreation AnnotationMode.text yellowColor ⟨0, 0, 1⟩ true (some (5, 5)) =
      some ⟨AnnotationKind.text, 1, 0, 0, 5, 5, Option.none, some emptyText⟩ ∧
    1 < (⟨AnnotationKind.text, 1, 0, 0, 5, 5, Option.none, some emptyText⟩ :
          AnnotationDraft).width := by
  have hc : commitCreation AnnotationMode.text yellowColor ⟨0, 0, 1⟩ true
      (some (5, 5)) =
      some ⟨AnnotationKind.text, 1, 0, 0, 5, 5, Option.none, some emptyText⟩ := by
    have h1 : |(5:ℚ) - 0| = 5 := by rw [abs_of_nonneg] <;> norm_num
    have h4 : min (0:ℚ) 5 = 0 := min_eq_left (by norm_num)
    norm_num [commitCreation, h1, h4]
  exact ⟨hc, (creation_commit_semantics.2.1 AnnotationMode.text yellowColor
    ⟨0, 0, 1⟩ true (some (5, 5)) _ hc).1⟩

theorem resize_nw_exact (a : AnnotationEntity) (dx dy : ℚ)
    (hx : 0 ≤ a.x + dx) (hy : 0 ≤ a.y + dy)
    (hw : 5 ≤ a.width - dx) (hh : 5 ≤ a.height - dy)
    (hxw : a.x + a.width ≤ 100) (hyh : a.y + a.height ≤ 100) :
    handleResizeMove Corner.nw dx dy a =
      { a with x := a.x + dx, y := a.y + dy,
               width := a.width - dx, height := a.height - dy } := by
  have e1 : max 0 (a.x + dx) = a.x + dx := max_eq_right hx
  have e2 : max 0 (a.y + dy) = a.y + dy := max_eq_right hy
  have e3 : max 5 (a.width - dx) = a.width - dx := max_eq_right hw
  have e4 : max 5 (a.height - dy) = a.height - dy := max_eq_right hh
  simp only [handleResizeMove, resizeRaw, clampToPage, e1, e2, e3, e4]
  split_ifs with h1 h2 h2
  · exfalso; linarith
  · exfalso; linarith
  · exfalso; linarith
  · rfl

/-- Claim C6 (amended): when the nw-resize deltas keep the rectangle inside
its floors and the annotation satisfied `x + width ≤ 100` and
`y + height ≤ 100`, a nw resize step increases `x`/`y` by exactly
`(dx, dy)`, decreases `width`/`height` by the same deltas, and keeps the
south-east edges fixed; whenever a floor engages the deltas are no longer
exact (`nw_resize_floor_counterexample`).  In all cases, for every corner,
`x + width ≤ 100` holds after the step. -/
theorem nw_resize_semantics (a : AnnotationEntity) (dx dy : ℚ)
    (hx : 0 ≤ a.x + dx) (hy : 0 ≤ a.y + dy)
    (hw : 5 ≤ a.width - dx) (hh : 5 ≤ a.height - dy)
    (hxw : a.x + a.width ≤ 100) (hyh : a.y + a.height ≤ 100) :
    (handleResizeMove Corner.nw dx dy a).x = a.x + dx ∧
    (handleResizeMove Corner.nw dx dy a).y = a.y + dy ∧
    (handleResizeMove Corner.nw dx dy a).width = a.width - dx ∧
    (handleResizeMove Corner.nw dx dy a).height = a.height - dy ∧
    (handleResizeMove Corner.nw dx dy a).x +
        (handleResizeMove Corner.nw dx dy a).width = a.x + a.width ∧
    (∀ (b : AnnotationEntity) (c : Corner) (dx2 dy2 : ℚ),
      (handleResizeMove c dx2 dy2 b).x + (handleResizeMove c dx2 dy2 b).width ≤ 100) := by
  rw [resize_nw_exact a dx dy hx hy hw hh hxw hyh]
  refine ⟨rfl, rfl, rfl, rfl, by dsimp; ring,
    fun b c dx2 dy2 => (resizeMove_within_bounds c dx2 dy2 b).1⟩

theorem nw_resize_semantics_witness :
    (handleResizeMove Corner.nw 2 3 ⟨sampleId, AnnotationKind.text, 1, 10, 10,
        30, 30, Option.none, some emptyText⟩).x = 10 + 2 ∧
    (handleResizeMove Corner.nw 2 3 ⟨sampleId, AnnotationKind.text, 1, 10, 10,
        30, 30, Option.none, some emptyText⟩).width = 30 - 2 := by
  have h := nw_resize_semantics
    ⟨sampleId, AnnotationKind.text, 1, 10, 10, 30, 30, Option.none, some emptyText⟩
    2 3 (by norm_num) (by norm_num) (by norm_num) (by norm_num)
    (by norm_num) (by norm_num)
  exact ⟨h.1, h.2.2.1⟩

/-- Claim C6 counterexample: with `width = 20` and `Δx = 18` the unamended
claim predicts the nw resize yields `width = 2`, but the 5-unit floor of
`handleResizeMove` yields `width = 5`. -/
theorem nw_resize_floor_counterexample :
    (handleResizeMove Corner.nw 18 0 ⟨sampleId, AnnotationKind.text, 1, 10, 10,
        20, 20, Option.none, some emptyText⟩).width = 5 ∧
    ((20:ℚ) - 18) ≠ 5 := by
  constructor
  · have e3 : max (5:ℚ) (20 - 18) = 5 := max_eq_left (by norm_num)
    have e1 : max (0:ℚ) (10 + 18) = 28 := by rw [max_eq_right] <;> norm_num
    have e2 : max (0:ℚ) (10 + 0) = 10 := by rw [max_eq_right] <;> norm_num
    have e4 : max (5:ℚ) (20 - 0) = 20 := by rw [max_eq_right] <;> norm_num
    norm_num [handleResizeMove, resizeRaw, clampToPage, e1, e2, e3, e4]
  · norm_num

/-- Claim C7 (amended): the screenshot branch attempts a capture exactly
when the session is committed (`isSelecting`), both endpoints exist, and the
final pixel rectangle is strictly larger than 10 in each dimension
(`width > 10 && height > 10`); a missing endpoint is always a no-op.  A
rectangle of exactly 10 pixels is therefore a silent no-op
(`screenshot_boundary_counterexample`), contrary to the unamended claim's
`≥ 10`. -/
theorem screenshot_gate_strict (b : Bool) (s e : ℚ × ℚ) :
    ((screenshotAttempt b (some s) (some e)).isSome = true ↔
      b = true ∧ 10 < |e.1 - s.1| ∧ 10 < |e.2 - s.2|) ∧
    screenshotAttempt b Option.none (some e) = Option.none ∧
    screenshotAttempt b (some s) Option.none = Option.none := by
  refine ⟨?_, rfl, rfl⟩
  cases b with
  | false => simp [screenshotAttempt]
  | true =>
    constructor
    · intro hsome
      refine ⟨rfl, ?_⟩
      by_contra hno
      have hc : ¬ ((screenshotRect s e).width > 10 ∧
          (screenshotRect s e).height > 10) := hno
      simp [screenshotAttempt, hc] at hsome
    · rintro ⟨-, h1, h2⟩
      have hc : (screenshotRect s e).width > 10 ∧
          (screenshotRect s e).height > 10 := ⟨h1, h2⟩
      simp [screenshotAttempt, hc]

/-- Claim C7 counterexample: a committed selection whose final rectangle is
exactly 10 by 10 pixels is dropped — the gate is strict. -/
theorem screenshot_boundary_counterexample :
    (screenshotRect (0, 0) (10, 10)).width = 10 ∧
    (screenshotRect (0, 0) (10, 10)).height = 10 ∧
    screenshotAttempt true (some (0, 0)) (some (10, 10)) = Option.none := by
  have h1 : |(10:ℚ) - 0| = 10 := by rw [abs_of_nonneg] <;> norm_num
  refine ⟨by simp [screenshotRect, h1], by simp [screenshotRect, h1], ?_⟩
  simp [screenshotAttempt, screenshotRect, h1]

theorem screenshot_gate_strict_witness :
    (screenshotAttempt true (some (0, 0)) (some (11, 12))).isSome = true :=
  (screenshot_gate_strict true (0, 0) (11, 12)).1.mpr
    ⟨rfl, by rw [abs_of_nonneg] <;> norm_num, by rw [abs_of_nonneg] <;> norm_num⟩

/-- Outcome of a pointer-down-to-pointer-up interaction on an existing
text-box annotation while the tool is `none`. -/
inductive PressOutcome
  | enterEdit
  | startDrag
  | noAction
deriving DecidableEq

/-- The long-press timer armed by `handleAnnotationMouseDown`: it fires 300
ms after pointer-down and, if the pointer is still down
(`textBoxClickTimeRef` not yet cleared), starts an annotation drag. -/
def longPressTimerFires (pressDurationMs : Nat) : Bool :=
  decide (300 ≤ pressDurationMs)

/-- The click handler of the annotation overlay: it enters inline-edit mode
only when the elapsed duration recorded in `textBoxClickTimeRef` is below
300 ms. -/
def clickEntersEdit (pressDurationMs : Nat) : Bool :=
  decide (pressDurationMs < 300)

/-- Classification of a text-box press.  `moveDistPercent` is the largest
pointer displacement during the press; the source never consults it — the
only discriminator between click-to-edit and drag is the 300 ms timer.  (The
click event is assumed delivered, i.e. the pointer stayed over the
annotation.) -/
def textBoxPressOutcome (pressDurationMs : Nat) (moveDistPercent : ℚ) : PressOutcome :=
  if longPressTimerFires pressDurationMs then PressOutcome.startDrag
  else if clickEntersEdit pressDurationMs then PressOutcome.enterEdit
  else PressOutcome.noAction

/-- Claim C4 (amended): the click-versus-drag decision for a text box
depends on the press duration alone — releasing before 300 ms enters
inline-edit mode and holding for 300 ms or longer becomes a drag — and
movement does not enter into it. -/
theorem press_duration_classifies (d : Nat) (m : ℚ) :
    (d < 300 → textBoxPressOutcome d m = PressOutcome.enterEdit) ∧
    (300 ≤ d → textBoxPressOutcome d m = PressOutcome.startDrag) := by
  constructor
  · intro h
    have h1 : longPressTimerFires d = false :=
      decide_eq_false (Nat.not_le.mpr h)
    have h2 : clickEntersEdit d = true := decide_eq_true h
    simp [textBoxPressOutcome, h1, h2]
  · intro h
    have h1 : longPressTimerFires d = true := decide_eq_true h
    simp [textBoxPressOutcome, h1]

theorem press_duration_classifies_witness :
    (250 < 300 ∧ textBoxPressOutcome 250 0 = PressOutcome.enterEdit) ∧
    (300 ≤ 400 ∧ textBoxPressOutcome 400 5 = PressOutcome.startDrag) :=
  ⟨⟨by decide, (press_duration_classifies 250 0).1 (by decide)⟩,
   ⟨by decide, (press_duration_classifies 400 5).2 (by decide)⟩⟩

/-- Claim C4 counterexample: a 250 ms press that moved a full percentage
unit (beyond the 0.5-unit drag threshold the claim cites) still enters edit
mode rather than becoming a drag — movement never converts the session. -/
theorem press_move_counterexample :
    textBoxPressOutcome 250 1 = PressOutcome.enterEdit ∧
    textBoxPressOutcome 250 1 ≠ PressOutcome.startDrag ∧
    (1:ℚ) > 1/2 := by
  refine ⟨?_, ?_, by norm_num⟩ <;>
    simp [textBoxPressOutcome, longPressTimerFires, clickEntersEdit]

/-- An optimistic-mutation probe for one store operation: the annotation
list visible while the network call is in flight, and the list after the
call resolves (`Except.ok` carries the server's response entity). -/
structure MutationProcess where
  localDuringAwait : List AnnotationEntity
  localAfter : Except Unit AnnotationEntity → List AnnotationEntity

/-- Same probe for `deleteAnnotation`, whose call resolves with no body. -/
structure DeleteProcess where
  localDuringAwait : List AnnotationEntity
  localAfter : Except Unit Unit → List AnnotationEntity

/-- The store mutator `createAnnotation`: it awaits
`annotationApi.createAnnotation` and only then runs
`setAnnotations(prev => [...prev, newAnnotation])`; the catch branch returns
null without touching the list.  The extra arguments form the request body
and do not affect local state. -/
def createAnnotationOp (anns : List AnnotationEntity) (kind : AnnotationKind)
    (pageNumber : Nat) (x y width height : ℚ) (color : Option String)
    (textContent : Option String) : MutationProcess :=
  { localDuringAwait := anns,
    localAfter := fun r =>
      match r with
      | Except.ok newAnn => anns ++ [newAnn]
      | Except.error _ => anns }

/-- The store mutator `updateAnnotationPosition`: awaits
`annotationApi.updateAnnotation(id, {x, y})`, then replaces the matching
entry with the server's response; the catch branch leaves the list alone. -/
def updateAnnotationPosition (anns : List AnnotationEntity)
    (annotationId : String) (x y : ℚ) : MutationProcess :=
  { localDuringAwait := anns,
    localAfter := fun r =>
      match r with
      | Except.ok updated =>
        anns.map (fun ann => if ann.id = annotationId then updated else ann)
      | Except.error _ => anns }

/-- The store mutator `updateTextBoxContent`: same shape as the position
update, with a `text_content` request body. -/
def updateTextBoxContent (anns : List AnnotationEntity)
    (annotationId : String) (textContent : String) : MutationProcess :=
  { localDuringAwait := anns,
    localAfter := fun r =>
      match r with
      | Except.ok updated =>
        anns.map (fun ann => if ann.id = annotationId then updated else ann)
      | Except.error _ => anns }

/-- The store mutator `deleteAnnotation`: awaits the delete call, then
filters the entry out; the catch branch leaves the list alone. -/
def deleteAnnotationOp (anns : List AnnotationEntity)
    (annotationId : String) : DeleteProcess :=
  { localDuringAwait := anns,
    localAfter := fun r =>
      match r with
      | Except.ok _ => anns.filter (fun ann => ann.id != annotationId)
      | Except.error _ => anns }

/-- Claim C2 (amended): every store mutator leaves the local list untouched
while its network call is in flight and applies the server's response only
after the call succeeds; a failed call leaves the prior local state in place
(so a failed create never shows the annotation, and geometry already applied
by the drag/resize move handlers is not rolled back). -/
theorem mutators_apply_after_response (anns : List AnnotationEntity)
    (kind : AnnotationKind) (pageNumber : Nat) (x y w h : ℚ)
    (color : Option String) (tc : Option String) (annotationId : String)
    (textContent : String) (a : AnnotationEntity) :
    (createAnnotationOp anns kind pageNumber x y w h color tc).localDuringAwait = anns ∧
    (createAnnotationOp anns kind pageNumber x y w h color tc).localAfter
        (Except.error ()) = anns ∧
    (createAnnotationOp anns kind pageNumber x y w h color tc).localAfter
        (Except.ok a) = anns ++ [a] ∧
    (updateAnnotationPosition anns annotationId x y).localDuringAwait = anns ∧
    (updateAnnotationPosition anns annotationId x y).localAfter
        (Except.error ()) = anns ∧
    (updateTextBoxContent anns annotationId textContent).localDuringAwait = anns ∧
    (updateTextBoxContent anns annotationId textContent).localAfter
        (Except.error ()) = anns ∧
    (deleteAnnotationOp anns annotationId).localDuringAwait = anns ∧
    (deleteAnnotationOp anns annotationId).localAfter (Except.error ()) = anns :=
  ⟨rfl, rfl, rfl, rfl, rfl, rfl, rfl, rfl, rfl⟩

/-- Claim C2 counterexample: starting from an empty store, a created
annotation is not visible while the create call is in flight, and after a
failed call it never appears — `createAnnotation` is not optimistic. -/
theorem optimistic_create_counterexample :
    (createAnnotationOp [] AnnotationKind.highlight 1 10 10 20 (3/2)
        (some yellowColor) Option.none).localDuringAwait = [] ∧
    (createAnnotationOp [] AnnotationKind.highlight 1 10 10 20 (3/2)
        (some yellowColor) Option.none).localAfter (Except.error ()) = [] :=
  ⟨rfl, rfl⟩

/-- The scroll container's metrics (`pdfContentRef.current`) as read at a
given moment. -/
structure Container where
  scrollTop : ℚ
  scrollHeight : ℚ
  clientHeight : ℚ
deriving DecidableEq

/-- The scroll position computed inside the debounce callback:
`maxScroll > 0 ? scrollTop / maxScroll * 100 : 0`. -/
def scrollPercent (c : Container) : ℚ :=
  if c.scrollHeight - c.clientHeight > 0 then
    c.scrollTop / (c.scrollHeight - c.clientHeight) * 100
  else 0

/-- One issued `readingStateApi.saveReadingState` call: when it fired and
the scroll position it carried (computed from the container at that
moment). -/
structure SaveCall where
  time : Nat
  scroll_position : ℚ
deriving DecidableEq

/-- The tracker's timer state: the deadline of the pending debounce timer
(`saveTimeoutRef`), if any, and the save calls issued so far. -/
structure TrackerState where
  pending : Option Nat
  saves : List SaveCall
deriving DecidableEq

/-- Fire the pending timer if its deadline has passed by time `now`; the
callback reads the container at its fire time (`env`). -/
def fireDue (env : Nat → Container) (now : Nat) (s : TrackerState) : TrackerState :=
  match s.pending with
  | some ft =>
    if ft ≤ now then
      { pending := Option.none,
        saves := s.saves ++ [⟨ft, scrollPercent (env ft)⟩] }
    else s
  | Option.none => s

/-- `saveReadingState` as invoked by a scroll or zoom event at time `now`:
any timer whose deadline already passed has fired beforehand; the handler
then clears the pending timer (`clearTimeout`) and schedules a new one
2000 ms out (`setTimeout(..., 2000)`). -/
def saveReadingState (env : Nat → Container) (now : Nat) (s : TrackerState) : TrackerState :=
  { pending := some (now + 2000), saves := (fireDue env now s).saves }

/-- Let a still-pending timer run to its deadline (nothing else intervenes). -/
def flushPending (env : Nat → Container) (s : TrackerState) : TrackerState :=
  match s.pending with
  | some ft =>
    { pending := Option.none,
      saves := s.saves ++ [⟨ft, scrollPercent (env ft)⟩] }
  | Option.none => s

/-- A burst of scroll/zoom events at the given times, starting from an idle
tracker, followed by quiescence long enough for the last timer to fire. -/
def runScrollBurst (env : Nat → Container) (ts : List Nat) : TrackerState :=
  flushPending env (ts.foldl (fun s t => saveReadingState env t s) ⟨Option.none, []⟩)

/-- The cleanup of the unmount effect: `clearTimeout(saveTimeoutRef.current)`
— it cancels a pending timer and issues nothing. -/
def unmountCleanup (s : TrackerState) : TrackerState :=
  { pending := Option.none, saves := s.saves }

/-- Last element of a list, with a default for the empty list. -/
def lastD : List Nat → Nat → Nat
  | [], d => d
  | t :: ts, _ => lastD ts t

theorem burst_fold (env : Nat → Container) (rest : List Nat) :
    ∀ (prev : Nat) (acc : List SaveCall),
      List.Chain (fun a b => b < a + 2000) prev rest →
      rest.foldl (fun s t => saveReadingState env t s) ⟨some (prev + 2000), acc⟩ =
        ⟨some (lastD rest prev + 2000), acc⟩ := by
  induction rest with
  | nil => intro prev acc _; rfl
  | cons t ts ih =>
    intro prev acc hch
    obtain ⟨h1, h2⟩ := List.chain_cons.mp hch
    rw [List.foldl_cons]
    have hstep : saveReadingState env t ⟨some (prev + 2000), acc⟩ =
        ⟨some (t + 2000), acc⟩ := by
      simp [saveReadingState, fireDue, Nat.not_le.mpr h1]
    rw [hstep]
    exact ih t acc h2

/-- Claim C8: a burst of one or more scroll/zoom events with consecutive
gaps under 2000 ms issues exactly one save call; it fires 2000 ms after the
last event of the burst and carries the scroll position computed from the
container at that fire time (`scrollPercent`: 0 when the container is not
scrollable). -/
theorem debounce_burst_single_save (env : Nat → Container) (t0 : Nat)
    (rest : List Nat) (h : List.Chain (fun a b => b < a + 2000) t0 rest) :
    runScrollBurst env (t0 :: rest) =
      ⟨Option.none,
       [⟨lastD rest t0 + 2000, scrollPercent (env (lastD rest t0 + 2000))⟩]⟩ := by
  unfold runScrollBurst
  rw [List.foldl_cons]
  have h0 : saveReadingState env t0 ⟨Option.none, []⟩ = ⟨some (t0 + 2000), []⟩ := by
    simp [saveReadingState, fireDue]
  rw [h0, burst_fold env rest t0 [] h]
  rfl

theorem debounce_burst_single_save_witness :
    runScrollBurst (fun _ => ⟨300, 2000, 500⟩) [0, 1000, 1999] =
      ⟨Option.none, [⟨3999, 20⟩]⟩ := by
  rw [debounce_burst_single_save (fun _ => ⟨300, 2000, 500⟩) 0 [1000, 1999]
    (by constructor <;> norm_num)]
  norm_num [lastD, scrollPercent]

/-- Claim C9 (amended): the unmount cleanup cancels the pending debounce
timer, so a save scheduled before unmount never fires after the view is
gone — contrary to the unamended claim that the timer survives unmount. -/
theorem unmount_cancels_pending_save (env : Nat → Container) (s : TrackerState) :
    (unmountCleanup s).pending = Option.none ∧
    flushPending env (unmountCleanup s) = ⟨Option.none, s.saves⟩ :=
  ⟨rfl, rfl⟩

/-- Claim C9 counterexample: a tracker with a pending save scheduled for
t = 5000 has no pending timer after the unmount cleanup runs, and letting
time pass fires nothing. -/
theorem unmount_cancel_counterexample :
    (unmountCleanup ⟨some 5000, []⟩).pending = Option.none ∧
    (unmountCleanup ⟨some 5000, []⟩).pending ≠ some 5000 ∧
    (flushPending (fun _ => ⟨0, 0, 0⟩) (unmountCleanup ⟨some 5000, []⟩)).saves = [] :=
  ⟨rfl, by simp [unmountCleanup], rfl⟩

/-- The interactive children the annotation overlay renders inside one
annotation's absolutely-positioned box. -/
inductive OverlayElem
  | annotationBox
  | editTextarea
  | markdownContent
  | resizeHandle (corner : Corner)
deriving DecidableEq

/-- The per-annotation overlay JSX: every annotation gets its box; only when
`annotation_type === 'text'` does the box contain the textarea (while
editing) or the rendered content, followed by the four corner resize
handles.  Highlights render no children and in particular no handles. -/
def renderAnnotationOverlay (isEditing : Bool) (a : AnnotationEntity) : List OverlayElem :=
  OverlayElem.annotationBox ::
    (if a.annotation_type = AnnotationKind.text then
      (if isEditing then [OverlayElem.editTextarea] else [OverlayElem.markdownContent]) ++
        [OverlayElem.resizeHandle Corner.nw, OverlayElem.resizeHandle Corner.ne,
         OverlayElem.resizeHandle Corner.sw, OverlayElem.resizeHandle Corner.se]
    else [])

theorem clampToPage_eq_self (ann : AnnotationEntity)
    (h1 : ann.x + ann.width ≤ 100) (h2 : ann.y + ann.height ≤ 100) :
    clampToPage ann = ann := by
  simp [clampToPage, if_neg (not_lt.mpr h1), if_neg (not_lt.mpr h2)]

theorem resizeRaw_min_size (c : Corner) (dx dy : ℚ) (b : AnnotationEntity) :
    5 ≤ (resizeRaw c dx dy b).width ∧ 5 ≤ (resizeRaw c dx dy b).height := by
  cases c <;> dsimp [resizeRaw] <;> exact ⟨le_max_left _ _, le_max_left _ _⟩

/-- Claim C10: resize handles exist only on text-box annotations (the
overlay renders them for no other kind), and every resize-move step floors
the new width and height at 5 percentage units before the page-boundary
clamp, so whenever the clamp does not engage the resulting width and height
are both at least 5. -/
theorem resize_text_only_and_min_size (isEditing : Bool) (a : AnnotationEntity)
    (c : Corner) (b : AnnotationEntity) (c2 : Corner) (dx dy : ℚ)
    (hmem : OverlayElem.resizeHandle c ∈ renderAnnotationOverlay isEditing a)
    (hxw : (resizeRaw c2 dx dy b).x + (resizeRaw c2 dx dy b).width ≤ 100)
    (hyh : (resizeRaw c2 dx dy b).y + (resizeRaw c2 dx dy b).height ≤ 100) :
    a.annotation_type = AnnotationKind.text ∧
    5 ≤ (handleResizeMove c2 dx dy b).width ∧
    5 ≤ (handleResizeMove c2 dx dy b).height := by
  have htype : a.annotation_type = AnnotationKind.text := by
    by_contra hne
    simp [renderAnnotationOverlay, hne] at hmem
  have hclamp : handleResizeMove c2 dx dy b = resizeRaw c2 dx dy b := by
    unfold handleResizeMove
    exact clampToPage_eq_self _ hxw hyh
  rw [hclamp]
  exact ⟨htype, (resizeRaw_min_size c2 dx dy b).1, (resizeRaw_min_size c2 dx dy b).2⟩

theorem resize_text_only_and_min_size_witness :
    sampleTextEntity.annotation_type = AnnotationKind.text ∧
    5 ≤ (handleResizeMove Corner.se 0 0 sampleTextEntity).width ∧
    5 ≤ (handleResizeMove Corner.se 0 0 sampleTextEntity).height :=
  resize_text_only_and_min_size true sampleTextEntity Corner.nw sampleTextEntity
    Corner.se 0 0
    (by simp [renderAnnotationOverlay, sampleTextEntity])
    (by norm_num [resizeRaw, sampleTextEntity])
    (by norm_num [resizeRaw, sampleTextEntity])
